import Mathlib

set_option linter.unusedVariables false

/-!
Verification of the AutoSpotting entry point (autospotting.go).

The file shallowly embeds the entry point of the fleet-automation agent:
the JSON envelope decoding performed by the Lambda handler, the two
dispatch paths (targeted spot-interruption termination versus fleet-wide
scheduled run), the flag-based configuration construction, and the
process lifecycle (package init, mode selection in main, version
short-circuit, fatal dataset-fetch failure).

External collaborators (the core replacement engine, the AWS SDK event
types, the instance-type dataset) are embedded only as far as the entry
point observes them; those spots are marked in the doc comments.
-/

/-- JSON values, as seen by encoding/json after a successful syntactic
parse.  Numbers are embedded as integers: the handler never reads a
numeric field, numbers only matter as ill-typed values for string-typed
struct fields. -/
inductive Json where
  | null
  | bool (b : Bool)
  | num (n : Int)
  | str (s : String)
  | arr (elems : List Json)
  | obj (fields : List (String × Json))

/-- ASCII lower-casing of one character, for the case-insensitive key
match of encoding/json. -/
def lowerChar (c : Char) : Char :=
  if 65 ≤ c.toNat ∧ c.toNat ≤ 90 then Char.ofNat (c.toNat + 32) else c

/-- Case-insensitive key comparison of encoding/json. -/
def keyMatches (name key : String) : Bool :=
  name.data.map lowerChar == key.data.map lowerChar

/-- Field lookup of encoding/json when decoding an object into a struct:
keys are matched case-insensitively against the JSON name of the field and the
keys of an object are processed in order, so the last matching occurrence
wins. -/
def jsonField (fields : List (String × Json)) (key : String) : Option Json :=
  ((fields.filter (fun p => keyMatches p.fst key)).getLast?).map (fun p => p.snd)

/-- Decoding of a string-typed Go struct field: a missing key or a JSON
null leaves the zero value "", a JSON string is taken verbatim, and any
other JSON value is a type error. -/
def getStringField (fields : List (String × Json)) (key : String) : Except String String :=
  match jsonField fields key with
  | none => Except.ok ""
  | some Json.null => Except.ok ""
  | some (Json.str s) => Except.ok s
  | some _ =>
      Except.error ("json: cannot unmarshal value into Go struct field " ++ key ++ " of type string")

/-- events.SNSEntity of the aws-lambda-go SDK.  The handler reads only
the Message field; the remaining envelope metadata fields of the SDK type
are not modelled, so payloads that are ill-typed only on those fields are
outside the model. -/
structure SNSEntity where
  Message : String := ""

/-- events.SNSEventRecord; only the Sns entity is read by the handler. -/
structure SNSEventRecord where
  SNS : SNSEntity := {}

/-- events.SNSEvent.  Records is a Go slice; none embeds the nil slice
(missing key or JSON null) and some embeds a non-nil slice, so that
some [] is the non-nil empty slice produced by the JSON text [] — the
distinction observed by the nil check in Handler. -/
structure SNSEvent where
  Records : Option (List SNSEventRecord) := none

/-- Decoder for an SNSEntity value (inner object of an SNS record). -/
def decodeSNSEntity (j : Json) : Except String SNSEntity :=
  match j with
  | Json.null => Except.ok {}
  | Json.obj fields => do
      let m ← getStringField fields "Message"
      Except.ok { Message := m }
  | _ => Except.error "json: cannot unmarshal value into Go value of type events.SNSEntity"

/-- Decoder for a single SNS record. -/
def decodeSNSEventRecord (j : Json) : Except String SNSEventRecord :=
  match j with
  | Json.null => Except.ok {}
  | Json.obj fields =>
      match jsonField fields "Sns" with
      | none => Except.ok {}
      | some v => do
          let e ← decodeSNSEntity v
          Except.ok { SNS := e }
  | _ => Except.error "json: cannot unmarshal value into Go value of type events.SNSEventRecord"

/-- Decoder for events.SNSEvent, mirroring json.Unmarshal: the top level
must be an object or null; a missing or null Records key leaves the nil
slice; an array decodes element-wise; anything else is a type error. -/
def decodeSNSEvent (j : Json) : Except String SNSEvent :=
  match j with
  | Json.null => Except.ok {}
  | Json.obj fields =>
      match jsonField fields "Records" with
      | none => Except.ok { Records := none }
      | some Json.null => Except.ok { Records := none }
      | some (Json.arr elems) => do
          let rs ← elems.mapM decodeSNSEventRecord
          Except.ok { Records := some rs }
      | some _ =>
          Except.error "json: cannot unmarshal value into Go struct field SNSEvent.Records"
  | _ => Except.error "json: cannot unmarshal value into Go value of type events.SNSEvent"

/-- events.CloudWatchEvent of the aws-lambda-go SDK.  The handler reads
DetailType (JSON key detail-type) and Region, and forwards the whole
event, whose Detail payload (a json.RawMessage) is kept as raw JSON; the
remaining fields of the SDK type (version, id, source, account, time,
resources) are not modelled. -/
structure CloudWatchEvent where
  DetailType : String := ""
  Region : String := ""
  Detail : Option Json := none

/-- Decoder for events.CloudWatchEvent, mirroring json.Unmarshal on the
modelled fields.  Detail is a json.RawMessage, so any JSON value is
accepted verbatim there. -/
def decodeCloudWatchEvent (j : Json) : Except String CloudWatchEvent :=
  match j with
  | Json.null => Except.ok {}
  | Json.obj fields => do
      let dt ← getStringField fields "detail-type"
      let rg ← getStringField fields "region"
      Except.ok { DetailType := dt, Region := rg, Detail := jsonField fields "detail" }
  | _ => Except.error "json: cannot unmarshal value into Go value of type events.CloudWatchEvent"

/-- json.Unmarshal of a byte payload into events.SNSEvent: the syntactic
parse of the byte string is abstracted as the function jsonParse (none
embeds a syntax error), followed by the structural decode. -/
def unmarshalSNSEvent (jsonParse : String → Option Json) (data : String) : Except String SNSEvent :=
  match jsonParse data with
  | none => Except.error "invalid character in JSON input"
  | some j => decodeSNSEvent j

/-- json.Unmarshal of a byte payload into events.CloudWatchEvent, with
the same abstracted syntactic parse. -/
def unmarshalCloudWatchEvent (jsonParse : String → Option Json) (data : String) :
    Except String CloudWatchEvent :=
  match jsonParse data with
  | none => Except.error "invalid character in JSON input"
  | some j => decodeCloudWatchEvent j

/-- The reference instance-type dataset returned by ec2instancesinfo.Data.
It is opaque to the entry point, which only stores it in the config, so it
is embedded as its raw JSON. -/
structure InstanceData where
  raw : Json

/-- autospotting.Config, restricted to the fields the entry point writes:
MainRegion and SleepMultiplier (set in init), the fifteen flag-bound
fields, and the fetched InstanceData.  LogFile and LogFlag are process
logging plumbing with no decidable content and are not modelled. -/
structure Config where
  MainRegion : String := ""
  SleepMultiplier : Int := 0
  AllowedInstanceTypes : String := ""
  BiddingPolicy : String := ""
  DisallowedInstanceTypes : String := ""
  InstanceTerminationMethod : String := ""
  TerminationNotificationAction : String := ""
  MinOnDemandNumber : Int := 0
  MinOnDemandPercentage : Rat := 0
  OnDemandPriceMultiplier : Rat := 0
  Regions : String := ""
  SpotPriceBufferPercentage : Rat := 0
  SpotProductDescription : String := ""
  TagFilteringMode : String := ""
  FilterByTags : String := ""
  CronSchedule : String := ""
  CronScheduleState : String := ""
  InstanceData : Option InstanceData := none

/-- Modelled from the spec: autospotting.DefaultBiddingPolicy lives in the
core package, which is not under src/; the spec fixes the default of
BiddingPolicy to normal. -/
def DefaultBiddingPolicy : String := "normal"

/-- Modelled from the spec: core constant; the spec fixes the default of
InstanceTerminationMethod to terminate. -/
def DefaultInstanceTerminationMethod : String := "terminate"

/-- Modelled from the spec: core constant; the spec fixes the default of
TerminationNotificationAction to auto. -/
def DefaultTerminationNotificationAction : String := "auto"

/-- Modelled from the spec: core constant; the spec fixes the default of
MinOnDemandNumber to 0. -/
def DefaultMinOnDemandValue : Int := 0

/-- Modelled from the spec: core constant; the spec only says the default
of SpotPriceBufferPercentage is a fixed value without naming it, so the
value here is a stand-in and no claim depends on it. -/
def DefaultSpotPriceBufferPercentage : Rat := 10

/-- Modelled from the spec: core constant; the spec only says the default
of SpotProductDescription is a fixed platform string, so the value here is
a stand-in among the listed platform strings and no claim depends on it. -/
def DefaultSpotProductDescription : String := "Linux/UNIX (Amazon VPC)"

/-- The raw configuration surface of cfgData.parseCommandLineFlags: one
optional typed value per registered flag (none means the flag was not
supplied on the command line or environment).  The string-to-value
parsing of the namsral/flag library is external and is abstracted by the
fields already carrying typed values. -/
structure FlagInput where
  allowed_instance_types : Option String := none
  bidding_policy : Option String := none
  disallowed_instance_types : Option String := none
  instance_termination_method : Option String := none
  termination_notification_action : Option String := none
  min_on_demand_number : Option Int := none
  min_on_demand_percentage : Option Rat := none
  on_demand_price_multiplier : Option Rat := none
  regions : Option String := none
  spot_price_buffer_percentage : Option Rat := none
  spot_product_description : Option String := none
  tag_filtering_mode : Option String := none
  tag_filters : Option String := none
  cron_schedule : Option String := none
  cron_schedule_state : Option String := none
  version : Option Bool := none

/-- Embeds cfgData.parseCommandLineFlags up to flag.Parse(): every
registered flag is assigned into the config, from the supplied value or
from its registered default; no value is validated.  The returned Bool is
the version flag, which the source checks right after parsing (the
printVersion call at the end of parseCommandLineFlags is kept in the
caller, see cfgDataInit). -/
def parseCommandLineFlags (c : Config) (input : FlagInput) : Config × Bool :=
  ({ c with
      AllowedInstanceTypes := input.allowed_instance_types.getD "",
      BiddingPolicy := input.bidding_policy.getD DefaultBiddingPolicy,
      DisallowedInstanceTypes := input.disallowed_instance_types.getD "",
      InstanceTerminationMethod := input.instance_termination_method.getD DefaultInstanceTerminationMethod,
      TerminationNotificationAction := input.termination_notification_action.getD DefaultTerminationNotificationAction,
      MinOnDemandNumber := input.min_on_demand_number.getD DefaultMinOnDemandValue,
      MinOnDemandPercentage := input.min_on_demand_percentage.getD 0,
      OnDemandPriceMultiplier := input.on_demand_price_multiplier.getD 1,
      Regions := input.regions.getD "",
      SpotPriceBufferPercentage := input.spot_price_buffer_percentage.getD DefaultSpotPriceBufferPercentage,
      SpotProductDescription := input.spot_product_description.getD DefaultSpotProductDescription,
      TagFilteringMode := input.tag_filtering_mode.getD "opt-in",
      FilterByTags := input.tag_filters.getD "",
      CronSchedule := input.cron_schedule.getD "* *",
      CronScheduleState := input.cron_schedule_state.getD "on" },
   input.version.getD false)

/-- The build version variable of the entry point, with its in-source
default (the real value is injected at link time). -/
def Version : String := "number missing"

/-- The line printed by printVersion when the version flag is set. -/
def printVersionLine : String := "AutoSpotting build: " ++ Version

/-- Outcome of cfgData.initialize (package-level configuration setup).
exited embeds the os.Exit(0) performed by printVersion, carrying the
global config as already mutated by flag.Parse at that point; fatalExit
embeds log.Fatal on a dataset-fetch error, which writes the message and
exits with a non-zero status; ready is the normal completion with the
fetched dataset stored. -/
inductive InitOutcome where
  | exited (confAtExit : Config) (printed : List String) (code : Nat)
  | fatalExit (confAtExit : Config) (loggedError : String)
  | ready (conf : Config)

/-- Embeds cfgData.initialize: parse the flags (parseCommandLineFlags,
whose trailing printVersion call exits with code 0 when the version flag
is set), then fetch the reference dataset via ec2instancesinfo.Data —
abstracted as the fetched argument — storing it on success and dying via
log.Fatal on error. -/
def cfgDataInit (c : Config) (input : FlagInput) (fetched : Except String InstanceData) :
    InitOutcome :=
  let pc := parseCommandLineFlags c input
  if pc.2 then
    InitOutcome.exited pc.1 [printVersionLine] 0
  else
    match fetched with
    | Except.error e => InitOutcome.fatalExit pc.1 e
    | Except.ok d => InitOutcome.ready { pc.1 with InstanceData := some d }

/-- The configuration state reached by cfgData.initialize, in every
outcome. -/
def InitOutcome.confOf : InitOutcome → Config
  | InitOutcome.exited c _ _ => c
  | InitOutcome.fatalExit c _ => c
  | InitOutcome.ready c => c

/-- endpoints.UsEast1RegionID of the AWS SDK, whose public value is the
region name us-east-1. -/
def UsEast1RegionID : String := "us-east-1"

/-- The config literal built by the Go init function: MainRegion is the
AWS_REGION environment value when non-empty, else UsEast1RegionID;
SleepMultiplier is 1; every other field is at its zero value until
flag parsing. -/
def initialConf (awsRegionEnv : String) : Config :=
  { MainRegion := if awsRegionEnv ≠ "" then awsRegionEnv else UsEast1RegionID,
    SleepMultiplier := 1 }

/-- Embeds the Go init function: build the initial config from the
AWS_REGION environment variable, then run cfgData.initialize on it. -/
def goInit (awsRegionEnv : String) (input : FlagInput) (fetched : Except String InstanceData) :
    InitOutcome :=
  cfgDataInit (initialConf awsRegionEnv) input fetched

/-- Log lines emitted by the entry point, one constructor per log call
site (the rendered printf text is the business of the logging library). -/
inductive LogLine where
  | errorLine (msg : String)
  | startingAgent (version : String)
  | parsedFlagsLine (c : Config)
  | executionCompleted

/-- Terminal actions dispatched to the external collaborators:
spotTermination.ExecuteAction on the targeted path, autospotting.Run on
the fleet-wide path. -/
inductive AgentAction where
  | executeTermination (instanceID : String) (region : String) (notificationAction : String)
  | scheduledRun (c : Config)

/-- Observable events of one invocation, in order: log lines, the call to
core.GetInstanceIDDueForTermination (the instance-ID resolution), and
dispatched actions. -/
inductive Event where
  | logged (l : LogLine)
  | resolvedInstanceID (e : CloudWatchEvent)
  | acted (a : AgentAction)

/-- Embeds run(): log the startup line and the parsed-flags line, invoke
autospotting.Run on the config, then log the completion line. -/
def run (conf : Config) : List Event :=
  [Event.logged (LogLine.startingAgent Version),
   Event.logged (LogLine.parsedFlagsLine conf),
   Event.acted (AgentAction.scheduledRun conf),
   Event.logged LogLine.executionCompleted]

/-- The detail-type literal the handler compares against. -/
def interruptionWarning : String := "EC2 Spot Instance Interruption Warning"

/-- Result of one Handler invocation: a normal return with its event
trace, or a Go runtime panic (which Lambda surfaces as an invocation
error) with the events emitted before the panic. -/
inductive HandlerResult where
  | returned (events : List Event)
  | panicked (events : List Event) (panicMessage : String)

/-- The routing on a decoded CloudWatch event: on an interruption
detail-type, resolve the instance ID due for termination — the call to
core.GetInstanceIDDueForTermination is the abstracted oracle
getInstanceID, since that function is not under src/; per the spec it
fails silently when the detail does not identify a terminating instance —
and, when an ID is found, execute the termination action with the region of the event
itself and the configured notification action; on any other detail-type,
perform the scheduled run. -/
def handlerStage3 (getInstanceID : CloudWatchEvent → Except String (Option String))
    (conf : Config) (cloudwatchEvent : CloudWatchEvent) : HandlerResult :=
  if cloudwatchEvent.DetailType = interruptionWarning then
    match getInstanceID cloudwatchEvent with
    | Except.error _ => HandlerResult.returned [Event.resolvedInstanceID cloudwatchEvent]
    | Except.ok none => HandlerResult.returned [Event.resolvedInstanceID cloudwatchEvent]
    | Except.ok (some instanceID) =>
        HandlerResult.returned
          [Event.resolvedInstanceID cloudwatchEvent,
           Event.acted (AgentAction.executeTermination instanceID cloudwatchEvent.Region
             conf.TerminationNotificationAction)]
  else
    HandlerResult.returned (run conf)

/-- The unmarshal step in front of handlerStage3: on decode error, log it
and return. -/
def handlerStage2 (jsonParse : String → Option Json)
    (getInstanceID : CloudWatchEvent → Except String (Option String))
    (conf : Config) (parseEvent : String) : HandlerResult :=
  match unmarshalCloudWatchEvent jsonParse parseEvent with
  | Except.error e => HandlerResult.returned [Event.logged (LogLine.errorLine e)]
  | Except.ok cloudwatchEvent => handlerStage3 getInstanceID conf cloudwatchEvent

/-- The working payload after the SNS stage: when the decoded SNS event
has at least one record, the message of the first record replaces the raw
payload, otherwise the raw payload is kept.  Only used to state theorems;
Handler itself matches the record list directly, including the empty
non-nil case this function cannot reach there. -/
def parseEventOf (rawEvent : String) (snsEvent : SNSEvent) : String :=
  match snsEvent.Records with
  | some (r :: _) => r.SNS.Message
  | _ => rawEvent

/-- Embeds Handler: unmarshal the payload as an SNS event, logging and
returning on error; when the decoded Records slice is non-nil, index its
first element — a Go panic when the slice is empty — and replace the
working payload with the message of that record; then hand over to the
CloudWatch stage. -/
def Handler (jsonParse : String → Option Json)
    (getInstanceID : CloudWatchEvent → Except String (Option String))
    (conf : Config) (rawEvent : String) : HandlerResult :=
  match unmarshalSNSEvent jsonParse rawEvent with
  | Except.error e => HandlerResult.returned [Event.logged (LogLine.errorLine e)]
  | Except.ok snsEvent =>
    match snsEvent.Records with
    | some [] => HandlerResult.panicked [] "runtime error: index out of range [0] with length 0"
    | some (r :: _) => handlerStage2 jsonParse getInstanceID conf r.SNS.Message
    | none => handlerStage2 jsonParse getInstanceID conf rawEvent

/-- Outcome of a whole process: the version short-circuit, a fatal
initialization error (log.Fatal, non-zero exit), registration of the
triggered-mode handler (lambda.Start), or one direct run followed by
normal termination. -/
inductive ProcessOutcome where
  | exitedEarly (confAtExit : Config) (printed : List String) (code : Nat)
  | fatal (loggedError : String)
  | lambdaMode (conf : Config)
  | directMode (conf : Config) (trace : List Event)

/-- Embeds the process lifecycle: the package init function (goInit) runs
first; if it exits the process never reaches main; otherwise main
inspects the AWS_LAMBDA_FUNCTION_NAME marker exactly once and either
registers Handler with the Lambda runtime or performs one direct run. -/
def process (awsRegionEnv lambdaEnv : String) (input : FlagInput)
    (fetched : Except String InstanceData) : ProcessOutcome :=
  match goInit awsRegionEnv input fetched with
  | InitOutcome.exited c printed code => ProcessOutcome.exitedEarly c printed code
  | InitOutcome.fatalExit _ e => ProcessOutcome.fatal e
  | InitOutcome.ready conf =>
      if lambdaEnv ≠ "" then ProcessOutcome.lambdaMode conf
      else ProcessOutcome.directMode conf (run conf)

/-- Whether an event is a log line. -/
def Event.isLogLine : Event → Bool
  | Event.logged _ => true
  | _ => false

/-- Whether an event is the instance-ID resolution call. -/
def Event.isResolution : Event → Bool
  | Event.resolvedInstanceID _ => true
  | _ => false

/-- Whether an event dispatches the fleet-wide scheduled run. -/
def Event.isScheduledRunAction : Event → Bool
  | Event.acted (AgentAction.scheduledRun _) => true
  | _ => false

/-- Whether an event dispatches a targeted termination. -/
def Event.isTerminationAction : Event → Bool
  | Event.acted (AgentAction.executeTermination _ _ _) => true
  | _ => false

/-- Concrete JSON value of a direct interruption notification, used as a
witness input. -/
def intrJson : Json :=
  Json.obj [("detail-type", Json.str interruptionWarning), ("region", Json.str "us-east-1")]

/-- Concrete syntactic parser mapping every byte payload to intrJson. -/
def intrParse : String → Option Json := fun _ => some intrJson

/-- Concrete instance-ID oracle that finds the instance i-0123. -/
def intrOracle : CloudWatchEvent → Except String (Option String) :=
  fun _ => Except.ok (some "i-0123")

/-- The decoded form of intrJson as a CloudWatch event. -/
def intrCW : CloudWatchEvent :=
  { DetailType := interruptionWarning, Region := "us-east-1", Detail := none }

/-- The decoded form of intrJson as an SNS event: no Records key, so the
nil slice. -/
def noRecords : SNSEvent := { Records := none }

/-- Handler reduces to its CloudWatch stage on the working payload
whenever the SNS unmarshal succeeds without a non-nil empty Records
slice: with at least one record the working payload is the message of the
first record, with a nil slice it is the raw payload unchanged. -/
theorem handler_eq_stage2 (jsonParse : String → Option Json)
    (getInstanceID : CloudWatchEvent → Except String (Option String))
    (conf : Config) (rawEvent : String) (snsEvent : SNSEvent)
    (h1 : unmarshalSNSEvent jsonParse rawEvent = Except.ok snsEvent)
    (h2 : snsEvent.Records ≠ some []) :
    Handler jsonParse getInstanceID conf rawEvent =
      handlerStage2 jsonParse getInstanceID conf (parseEventOf rawEvent snsEvent) := by
  obtain ⟨recs⟩ := snsEvent
  unfold Handler
  rw [h1]
  cases recs with
  | none => rfl
  | some l =>
    cases l with
    | nil => exact absurd rfl h2
    | cons r rs => rfl

/-- handlerStage2 reduces to the routing stage when the CloudWatch
unmarshal succeeds. -/
theorem handlerStage2_ok (jsonParse : String → Option Json)
    (getInstanceID : CloudWatchEvent → Except String (Option String))
    (conf : Config) (parseEvent : String) (cw : CloudWatchEvent)
    (h : unmarshalCloudWatchEvent jsonParse parseEvent = Except.ok cw) :
    handlerStage2 jsonParse getInstanceID conf parseEvent =
      handlerStage3 getInstanceID conf cw := by
  unfold handlerStage2
  rw [h]

/-- Claim C1: a decoded notification with detailType equal to the literal
EC2 Spot Instance Interruption Warning sends the handler down the
targeted interruption path (instance-ID resolution, and only termination
actions), while any other detailType sends it down the fleet-wide
scheduled-run path; the two paths are mutually exclusive in one
invocation. -/
theorem c1_detail_type_routes (jsonParse : String → Option Json)
    (getInstanceID : CloudWatchEvent → Except String (Option String))
    (conf : Config) (rawEvent : String) (snsEvent : SNSEvent) (cw : CloudWatchEvent)
    (h1 : unmarshalSNSEvent jsonParse rawEvent = Except.ok snsEvent)
    (h2 : snsEvent.Records ≠ some [])
    (h3 : unmarshalCloudWatchEvent jsonParse (parseEventOf rawEvent snsEvent) = Except.ok cw) :
    ∃ t, Handler jsonParse getInstanceID conf rawEvent = HandlerResult.returned t ∧
      (cw.DetailType = interruptionWarning →
        t.any Event.isResolution = true ∧ t.any Event.isScheduledRunAction = false) ∧
      (cw.DetailType ≠ interruptionWarning →
        t = run conf ∧ t.any Event.isScheduledRunAction = true ∧
          t.any Event.isResolution = false ∧ t.any Event.isTerminationAction = false) := by
  rw [handler_eq_stage2 jsonParse getInstanceID conf rawEvent snsEvent h1 h2,
    handlerStage2_ok jsonParse getInstanceID conf _ cw h3]
  unfold handlerStage3
  by_cases hdt : cw.DetailType = interruptionWarning
  · rw [if_pos hdt]
    cases hg : getInstanceID cw with
    | error e => exact ⟨_, rfl, fun _ => ⟨rfl, rfl⟩, fun hn => absurd hdt hn⟩
    | ok o =>
      cases o with
      | none => exact ⟨_, rfl, fun _ => ⟨rfl, rfl⟩, fun hn => absurd hdt hn⟩
      | some i => exact ⟨_, rfl, fun _ => ⟨rfl, rfl⟩, fun hn => absurd hdt hn⟩
  · rw [if_neg hdt]
    exact ⟨run conf, rfl, fun hp => absurd hp hdt, fun _ => ⟨rfl, rfl, rfl, rfl⟩⟩

/-- Witness for C1 at a concrete interruption payload: each hypothesis is
discharged by evaluation. -/
theorem c1_witness :
    (unmarshalSNSEvent intrParse "evt" = Except.ok noRecords) ∧
    (noRecords.Records ≠ some []) ∧
    (unmarshalCloudWatchEvent intrParse (parseEventOf "evt" noRecords) = Except.ok intrCW) ∧
    (∃ t, Handler intrParse intrOracle {} "evt" = HandlerResult.returned t ∧
      (intrCW.DetailType = interruptionWarning →
        t.any Event.isResolution = true ∧ t.any Event.isScheduledRunAction = false) ∧
      (intrCW.DetailType ≠ interruptionWarning →
        t = run {} ∧ t.any Event.isScheduledRunAction = true ∧
          t.any Event.isResolution = false ∧ t.any Event.isTerminationAction = false)) :=
  ⟨rfl, by simp [noRecords], rfl,
   c1_detail_type_routes intrParse intrOracle {} "evt" noRecords intrCW rfl
     (by simp [noRecords]) rfl⟩

/-- Claim C4: on an interruption-typed event whose detail resolves to an
instance identifier, the executed termination action carries the
configured TerminationNotificationAction and the region taken from the
event itself, whatever MainRegion the config holds. -/
theorem c4_termination_action (jsonParse : String → Option Json)
    (getInstanceID : CloudWatchEvent → Except String (Option String))
    (conf : Config) (rawEvent : String) (snsEvent : SNSEvent) (cw : CloudWatchEvent)
    (instanceID : String)
    (h1 : unmarshalSNSEvent jsonParse rawEvent = Except.ok snsEvent)
    (h2 : snsEvent.Records ≠ some [])
    (h3 : unmarshalCloudWatchEvent jsonParse (parseEventOf rawEvent snsEvent) = Except.ok cw)
    (h4 : cw.DetailType = interruptionWarning)
    (h5 : getInstanceID cw = Except.ok (some instanceID)) :
    Handler jsonParse getInstanceID conf rawEvent =
      HandlerResult.returned
        [Event.resolvedInstanceID cw,
         Event.acted (AgentAction.executeTermination instanceID cw.Region
           conf.TerminationNotificationAction)] := by
  rw [handler_eq_stage2 jsonParse getInstanceID conf rawEvent snsEvent h1 h2,
    handlerStage2_ok jsonParse getInstanceID conf _ cw h3]
  unfold handlerStage3
  rw [if_pos h4, h5]

/-- Witness for C4 at a concrete interruption payload, with a MainRegion
differing from the event region to exhibit the override. -/
theorem c4_witness :
    (unmarshalSNSEvent intrParse "evt" = Except.ok noRecords) ∧
    (noRecords.Records ≠ some []) ∧
    (unmarshalCloudWatchEvent intrParse (parseEventOf "evt" noRecords) = Except.ok intrCW) ∧
    (intrCW.DetailType = interruptionWarning) ∧
    (intrOracle intrCW = Except.ok (some "i-0123")) ∧
    Handler intrParse intrOracle
        { MainRegion := "eu-west-1", TerminationNotificationAction := "auto" } "evt" =
      HandlerResult.returned
        [Event.resolvedInstanceID intrCW,
         Event.acted (AgentAction.executeTermination "i-0123" intrCW.Region "auto")] :=
  ⟨rfl, by simp [noRecords], rfl, rfl, rfl,
   c4_termination_action intrParse intrOracle
     { MainRegion := "eu-west-1", TerminationNotificationAction := "auto" } "evt"
     noRecords intrCW "i-0123" rfl (by simp [noRecords]) rfl rfl rfl⟩

/-- Concrete JSON value of an SNS envelope whose Records array is empty,
alongside direct notification fields, used as a failing input. -/
def emptyRecordsJson : Json :=
  Json.obj [("Records", Json.arr []),
            ("detail-type", Json.str "Scheduled Event"),
            ("region", Json.str "eu-west-1")]

/-- Concrete syntactic parser mapping every byte payload to
emptyRecordsJson. -/
def emptyRecordsParse : String → Option Json := fun _ => some emptyRecordsJson

/-- Concrete instance-ID oracle that never finds an instance. -/
def nilOracle : CloudWatchEvent → Except String (Option String) :=
  fun _ => Except.ok none

/-- Claim C2 (failing input): on the payload decoding to an SNS envelope
with an empty Records array, the handler does not return normally: the
decoded Records slice is non-nil, so the source indexes its first element
and panics, and the panic crosses the triggered-mode boundary back to the
platform as an invocation error. -/
theorem c2_empty_records_panics :
    Handler emptyRecordsParse nilOracle {} "payload" =
      HandlerResult.panicked [] "runtime error: index out of range [0] with length 0" := rfl

/-- Claim C3 (failing input): on a pub/sub envelope with zero records the
handler panics, whereas classifying the same payload directly as a
notification (the behavior the claim requires) succeeds and starts the
scheduled run; the two behaviors differ. -/
theorem c3_zero_records_diverges :
    Handler emptyRecordsParse nilOracle {} "payload" =
      HandlerResult.panicked [] "runtime error: index out of range [0] with length 0" ∧
    unmarshalCloudWatchEvent emptyRecordsParse "payload" =
      Except.ok { DetailType := "Scheduled Event", Region := "eu-west-1", Detail := none } ∧
    handlerStage2 emptyRecordsParse nilOracle {} "payload" =
      HandlerResult.returned (run {}) ∧
    Handler emptyRecordsParse nilOracle {} "payload" ≠
      handlerStage2 emptyRecordsParse nilOracle {} "payload" :=
  ⟨rfl, rfl, rfl, fun h => HandlerResult.noConfusion h⟩

/-- Counterexample to claim C7: a targeted interruption invocation that
executes a termination action returns with no log line in its trace. -/
theorem c7_counterexample :
    Handler intrParse intrOracle {} "evt" =
      HandlerResult.returned
        [Event.resolvedInstanceID intrCW,
         Event.acted (AgentAction.executeTermination "i-0123" "us-east-1" "")] ∧
    ([Event.resolvedInstanceID intrCW,
      Event.acted (AgentAction.executeTermination "i-0123" "us-east-1" "")].any
        Event.isLogLine) = false :=
  ⟨rfl, rfl⟩

/-- Logging discipline of the routing stage: a returned trace carries a
log line exactly when it is not an interruption-path trace (marked by the
instance-ID resolution event). -/
theorem stage3_logging (getInstanceID : CloudWatchEvent → Except String (Option String))
    (conf : Config) (cw : CloudWatchEvent) (t : List Event)
    (h : handlerStage3 getInstanceID conf cw = HandlerResult.returned t) :
    (t.any Event.isResolution = false → t.any Event.isLogLine = true) ∧
    (t.any Event.isResolution = true → t.any Event.isLogLine = false) := by
  unfold handlerStage3 at h
  by_cases hdt : cw.DetailType = interruptionWarning
  · rw [if_pos hdt] at h
    cases hg : getInstanceID cw with
    | error e =>
        rw [hg] at h
        injection h with h
        subst h
        exact ⟨fun hc => absurd hc (by simp [Event.isResolution]), fun _ => rfl⟩
    | ok o =>
        cases o with
        | none =>
            rw [hg] at h
            injection h with h
            subst h
            exact ⟨fun hc => absurd hc (by simp [Event.isResolution]), fun _ => rfl⟩
        | some i =>
            rw [hg] at h
            injection h with h
            subst h
            exact ⟨fun hc => absurd hc (by simp [Event.isResolution]), fun _ => rfl⟩
  · rw [if_neg hdt] at h
    injection h with h
    subst h
    exact ⟨fun _ => rfl, fun hc => absurd hc (by simp [run, Event.isResolution])⟩

/-- Logging discipline of handlerStage2: adds the decode-error path,
which logs the error. -/
theorem stage2_logging (jsonParse : String → Option Json)
    (getInstanceID : CloudWatchEvent → Except String (Option String))
    (conf : Config) (parseEvent : String) (t : List Event)
    (h : handlerStage2 jsonParse getInstanceID conf parseEvent = HandlerResult.returned t) :
    (t.any Event.isResolution = false → t.any Event.isLogLine = true) ∧
    (t.any Event.isResolution = true → t.any Event.isLogLine = false) := by
  unfold handlerStage2 at h
  cases hcw : unmarshalCloudWatchEvent jsonParse parseEvent with
  | error e =>
      rw [hcw] at h
      injection h with h
      subst h
      exact ⟨fun _ => rfl, fun hc => absurd hc (by simp [Event.isResolution])⟩
  | ok cw =>
      rw [hcw] at h
      exact stage3_logging getInstanceID conf cw t h

/-- Claim C7 as amended: every returned trace without the instance-ID
resolution event (the payload-drop paths and the scheduled path) carries
at least one log line, while every interruption-path trace (the ones with
the resolution event) carries none — the entry point itself logs nothing
on the targeted path. -/
theorem c7_logging_amended (jsonParse : String → Option Json)
    (getInstanceID : CloudWatchEvent → Except String (Option String))
    (conf : Config) (rawEvent : String) (t : List Event)
    (h : Handler jsonParse getInstanceID conf rawEvent = HandlerResult.returned t) :
    (t.any Event.isResolution = false → t.any Event.isLogLine = true) ∧
    (t.any Event.isResolution = true → t.any Event.isLogLine = false) := by
  unfold Handler at h
  cases hsns : unmarshalSNSEvent jsonParse rawEvent with
  | error e =>
      rw [hsns] at h
      injection h with h
      subst h
      exact ⟨fun _ => rfl, fun hc => absurd hc (by simp [Event.isResolution])⟩
  | ok snsEvent =>
      rw [hsns] at h
      obtain ⟨recs⟩ := snsEvent
      cases recs with
      | none => exact stage2_logging jsonParse getInstanceID conf rawEvent t h
      | some l =>
          cases l with
          | nil => exact HandlerResult.noConfusion h
          | cons r rs =>
              exact stage2_logging jsonParse getInstanceID conf r.SNS.Message t h

/-- Concrete syntactic parser mapping every byte payload to a direct
scheduled notification. -/
def schedParse : String → Option Json :=
  fun _ => some (Json.obj [("detail-type", Json.str "Scheduled Event"),
                           ("region", Json.str "eu-west-1")])

/-- Witness for the amended C7 at a concrete scheduled-run invocation. -/
theorem c7_witness :
    (Handler schedParse nilOracle {} "payload" = HandlerResult.returned (run {})) ∧
    (((run ({} : Config)).any Event.isResolution = false →
        (run ({} : Config)).any Event.isLogLine = true) ∧
      ((run ({} : Config)).any Event.isResolution = true →
        (run ({} : Config)).any Event.isLogLine = false)) :=
  ⟨rfl, c7_logging_amended schedParse nilOracle {} "payload" (run {}) rfl⟩

/-- The version flag returned by parseCommandLineFlags is the supplied
value, defaulting to false. -/
theorem parseFlags_version (c : Config) (input : FlagInput) :
    (parseCommandLineFlags c input).2 = input.version.getD false := rfl

/-- Flag parsing never writes MainRegion: no flag is bound to it. -/
theorem parseFlags_main_region (c : Config) (input : FlagInput) :
    (parseCommandLineFlags c input).1.MainRegion = c.MainRegion := rfl

/-- When the version flag is set, cfgData.initialize exits with code 0
after printing the version line, whatever the dataset fetch would do; the
config at exit is the flag-parsed one. -/
theorem cfgDataInit_version (c : Config) (input : FlagInput)
    (fetched : Except String InstanceData) (h : input.version.getD false = true) :
    cfgDataInit c input fetched =
      InitOutcome.exited (parseCommandLineFlags c input).1 [printVersionLine] 0 := by
  simp only [cfgDataInit]
  rw [parseFlags_version, h]
  simp

/-- When the version flag is not set and the dataset fetch fails,
cfgData.initialize dies via log.Fatal with the fetch error. -/
theorem cfgDataInit_fetch_error (c : Config) (input : FlagInput) (e : String)
    (h : input.version.getD false = false) :
    cfgDataInit c input (Except.error e) =
      InitOutcome.fatalExit (parseCommandLineFlags c input).1 e := by
  simp only [cfgDataInit]
  rw [parseFlags_version, h]
  simp

/-- When the version flag is not set and the dataset fetch succeeds,
cfgData.initialize completes with the flag-parsed config carrying the
dataset. -/
theorem cfgDataInit_ok (c : Config) (input : FlagInput) (d : InstanceData)
    (h : input.version.getD false = false) :
    cfgDataInit c input (Except.ok d) =
      InitOutcome.ready { (parseCommandLineFlags c input).1 with InstanceData := some d } := by
  simp only [cfgDataInit]
  rw [parseFlags_version, h]
  simp

/-- Concrete raw input setting the version flag together with another
flag, used as a failing input for C5. -/
def c5Input : FlagInput := { bidding_policy := some "aggressive", version := some true }

/-- Counterexample to claim C5: with the version flag set the process
does print the version line and exit 0 before any fetch, but the config
at exit already carries the parsed value of the bidding-policy flag —
the other configuration fields are parsed before the version check, not
skipped. -/
theorem c5_counterexample :
    process "r1" "" c5Input (Except.error "network down") =
      ProcessOutcome.exitedEarly (parseCommandLineFlags (initialConf "r1") c5Input).1
        [printVersionLine] 0 ∧
    (parseCommandLineFlags (initialConf "r1") c5Input).1.BiddingPolicy = "aggressive" ∧
    (initialConf "r1").BiddingPolicy = "" :=
  ⟨rfl, rfl, rfl⟩

/-- Claim C5 as amended: when the version flag is set, the process prints
the version string and exits with code 0 before any attempt to fetch the
reference dataset and without validating anything; the other
configuration flags are nevertheless parsed into the config before the
version check runs. -/
theorem c5_version_short_circuits (awsRegionEnv lambdaEnv : String) (input : FlagInput)
    (fetched : Except String InstanceData) (h : input.version = some true) :
    process awsRegionEnv lambdaEnv input fetched =
      ProcessOutcome.exitedEarly (parseCommandLineFlags (initialConf awsRegionEnv) input).1
        [printVersionLine] 0 := by
  have hv : input.version.getD false = true := by rw [h]; rfl
  unfold process goInit
  rw [cfgDataInit_version (initialConf awsRegionEnv) input fetched hv]

/-- Witness for the amended C5, with a failing fetch to exhibit that the
fetch is never attempted. -/
theorem c5_witness :
    (c5Input.version = some true) ∧
    process "r1" "" c5Input (Except.error "network down") =
      ProcessOutcome.exitedEarly (parseCommandLineFlags (initialConf "r1") c5Input).1
        [printVersionLine] 0 :=
  ⟨rfl, c5_version_short_circuits "r1" "" c5Input (Except.error "network down") rfl⟩

/-- Concrete raw input giving BiddingPolicy a value outside the
documented enum, used as a failing input for C6. -/
def c6Input : FlagInput := { bidding_policy := some "weird" }

/-- Concrete stand-in for a fetched dataset. -/
def someData : InstanceData := { raw := Json.null }

/-- Counterexample to claim C6: construction with BiddingPolicy set to a
value outside normal and aggressive succeeds (no validation error of any
kind) and stores the value verbatim. -/
theorem c6_counterexample :
    cfgDataInit {} c6Input (Except.ok someData) =
      InitOutcome.ready { (parseCommandLineFlags {} c6Input).1 with InstanceData := some someData } ∧
    (parseCommandLineFlags {} c6Input).1.BiddingPolicy = "weird" ∧
    ("weird" ≠ DefaultBiddingPolicy) ∧ ("weird" ≠ "aggressive") :=
  ⟨cfgDataInit_ok {} c6Input someData rfl, rfl, by decide, by decide⟩

/-- Claim C6 as amended: ConfigModel construction performs no validation
of BiddingPolicy — every supplied string is accepted verbatim and the
build succeeds; only when no value is supplied does the field take the
default normal. -/
theorem c6_any_bidding_policy_accepted (c : Config) (input : FlagInput) (d : InstanceData)
    (h : input.version.getD false = false) :
    cfgDataInit c input (Except.ok d) =
      InitOutcome.ready { (parseCommandLineFlags c input).1 with InstanceData := some d } ∧
    (parseCommandLineFlags c input).1.BiddingPolicy = input.bidding_policy.getD DefaultBiddingPolicy :=
  ⟨cfgDataInit_ok c input d h, rfl⟩

/-- Witness for the amended C6 at the out-of-enum value weird. -/
theorem c6_witness :
    (c6Input.version.getD false = false) ∧
    (cfgDataInit {} c6Input (Except.ok someData) =
        InitOutcome.ready { (parseCommandLineFlags {} c6Input).1 with InstanceData := some someData } ∧
      (parseCommandLineFlags {} c6Input).1.BiddingPolicy = c6Input.bidding_policy.getD DefaultBiddingPolicy) :=
  ⟨rfl, c6_any_bidding_policy_accepted {} c6Input someData rfl⟩

/-- Claim C8: when the reference-dataset fetch fails during
initialization, the process dies via log.Fatal carrying the fetch error —
it never reaches handler registration or a direct run, so no replacement
operation is attempted. -/
theorem c8_fetch_failure_fatal (awsRegionEnv lambdaEnv : String) (input : FlagInput) (e : String)
    (h : input.version.getD false = false) :
    process awsRegionEnv lambdaEnv input (Except.error e) = ProcessOutcome.fatal e := by
  unfold process goInit
  rw [cfgDataInit_fetch_error (initialConf awsRegionEnv) input e h]

/-- Witness for C8 at a concrete failing fetch. -/
theorem c8_witness :
    (({} : FlagInput).version.getD false = false) ∧
    process "r1" "fn" {} (Except.error "dataset unavailable") =
      ProcessOutcome.fatal "dataset unavailable" :=
  ⟨rfl, c8_fetch_failure_fatal "r1" "fn" {} "dataset unavailable" rfl⟩

/-- The config a successful initialization hands to main. -/
def readyConf (awsRegionEnv : String) (input : FlagInput) (d : InstanceData) : Config :=
  { (parseCommandLineFlags (initialConf awsRegionEnv) input).1 with InstanceData := some d }

/-- Claim C9: the entry mode is chosen once, by the platform environment
marker: when the marker is set the process registers the triggered-mode
handler with the Lambda runtime; when it is empty the process performs
exactly one unconditional scheduled run — no instance-ID resolution, no
event classification — and ends with the success log line. -/
theorem c9_mode_selection (awsRegionEnv lambdaEnv : String) (input : FlagInput)
    (d : InstanceData) (h : input.version.getD false = false) :
    (lambdaEnv ≠ "" →
      process awsRegionEnv lambdaEnv input (Except.ok d) =
        ProcessOutcome.lambdaMode (readyConf awsRegionEnv input d)) ∧
    (lambdaEnv = "" →
      process awsRegionEnv lambdaEnv input (Except.ok d) =
        ProcessOutcome.directMode (readyConf awsRegionEnv input d)
          (run (readyConf awsRegionEnv input d)) ∧
      ((run (readyConf awsRegionEnv input d)).filter Event.isScheduledRunAction).length = 1 ∧
      (run (readyConf awsRegionEnv input d)).any Event.isResolution = false ∧
      (run (readyConf awsRegionEnv input d)).getLast? =
        some (Event.logged LogLine.executionCompleted)) := by
  have hinit : goInit awsRegionEnv input (Except.ok d) =
      InitOutcome.ready (readyConf awsRegionEnv input d) := by
    unfold goInit readyConf
    exact cfgDataInit_ok (initialConf awsRegionEnv) input d h
  constructor
  · intro hl
    unfold process
    simp only [hinit]
    rw [if_pos hl]
  · intro hl
    refine ⟨?_, rfl, rfl, rfl⟩
    unfold process
    subst hl
    simp only [hinit]
    simp

/-- Witness for C9 in both modes, at concrete environments. -/
theorem c9_witness :
    (({} : FlagInput).version.getD false = false) ∧
    process "r1" "fn" {} (Except.ok someData) =
      ProcessOutcome.lambdaMode (readyConf "r1" {} someData) ∧
    process "r1" "" {} (Except.ok someData) =
      ProcessOutcome.directMode (readyConf "r1" {} someData) (run (readyConf "r1" {} someData)) :=
  ⟨rfl,
   (c9_mode_selection "r1" "fn" {} someData rfl).1 (by decide),
   ((c9_mode_selection "r1" "" {} someData rfl).2 rfl).1⟩

/-- Claim C10: the MainRegion of the configuration built at process
initialization is the AWS_REGION environment value when non-empty and
us-east-1 otherwise, in every initialization outcome; and flag parsing
never changes MainRegion, so the value is fixed before parsing and shared
read-only by later invocations. -/
theorem c10_main_region (awsRegionEnv : String) (input : FlagInput)
    (fetched : Except String InstanceData) :
    (goInit awsRegionEnv input fetched).confOf.MainRegion =
      (if awsRegionEnv ≠ "" then awsRegionEnv else "us-east-1") ∧
    ∀ c : Config, (parseCommandLineFlags c input).1.MainRegion = c.MainRegion := by
  constructor
  · cases hv : input.version.getD false with
    | true =>
        unfold goInit
        rw [cfgDataInit_version (initialConf awsRegionEnv) input fetched hv]
        rfl
    | false =>
        cases fetched with
        | error e =>
            unfold goInit
            rw [cfgDataInit_fetch_error (initialConf awsRegionEnv) input e hv]
            rfl
        | ok d =>
            unfold goInit
            rw [cfgDataInit_ok (initialConf awsRegionEnv) input d hv]
            rfl
  · intro c
    rfl
